import Mathlib

/-!
Verification of the aws-s3-security-guard pipeline: a shallow embedding of
`src/scanner.py` and `src/remediate.py` (the evaluate → remediate pipeline),
with theorems about the findings/remediation data model, the severity
selection rule, the dry-run gate, failure isolation and the CLI exit codes.

Provider interaction (boto3 `get_public_access_block` /
`put_public_access_block`) is modelled as an explicit function argument: for
reads, a map from bucket name to the outcome of the call (success with a
configuration dict, a botocore `ClientError` with an error envelope, or any
other raised exception); for writes, a map from bucket name to the outcome of
`put_public_access_block`. Python dicts with optional keys become structures
with `Option` fields; `dict.get(k)` becomes the `Option` value and
`dict.get(k, d)` becomes `Option.getD`.
-/

namespace S3Guard

/-- The error envelope of a botocore `ClientError`: `e.response["Error"]`, a
dict that may or may not carry `Code` and `Message` keys. -/
structure ErrorEnvelope where
  code : Option String
  message : Option String
deriving DecidableEq, Repr

/-- A `PublicAccessBlockConfiguration` dict.  Each of the four keys may be
absent (`none`), or present with a boolean value; `config.get(k) is True`
in the source corresponds to the field being `some true`. -/
structure PABConfig where
  BlockPublicAcls : Option Bool
  IgnorePublicAcls : Option Bool
  BlockPublicPolicy : Option Bool
  RestrictPublicBuckets : Option Bool
deriving DecidableEq, Repr

/-- Outcome of a provider configuration-read call
(`s3.get_public_access_block`), as observed by the caller's
`try/except ClientError/except Exception` ladder. -/
inductive ReadResult where
  /-- The call returned a `PublicAccessBlockConfiguration` dict. -/
  | ok (config : PABConfig)
  /-- The call raised `botocore.exceptions.ClientError`. -/
  | clientError (err : ErrorEnvelope)
  /-- The call raised any other exception, with its `str(e)` text. -/
  | raised (msg : String)
deriving DecidableEq, Repr

/-- The `details` value attached to a finding: either the raw `ClientError`
envelope dict (`e.response.get("Error", {})`) or the `str(e)` text of an
unexpected exception. -/
inductive Details where
  | errorDict (err : ErrorEnvelope)
  | text (s : String)
deriving DecidableEq, Repr

/-- A finding dict as produced by `scan_s3_buckets` and consumed by
`remediate`.  All fields are `Option` because `remediate` reads them with
`dict.get`, which tolerates absence. -/
structure Finding where
  bucket : Option String
  issue : Option String
  severity : Option String
  details : Option Details
deriving DecidableEq, Repr

/-- Summary block of a scan report (`src/scanner.py`, report construction). -/
structure ScanSummary where
  total_findings : Nat
  critical : Nat
  high : Nat
  medium : Nat
  low : Nat
deriving DecidableEq, Repr

/-- A scan report (`src/scanner.py`); `generated_at` and the constant
`service`/`scanner` tags are external I/O concerns and are omitted. -/
structure ScanReport where
  scanned_buckets : Nat
  findings : List Finding
  summary : ScanSummary
deriving DecidableEq, Repr

/-- `SEVERITY_ORDER` dict from `src/scanner.py`. -/
def SEVERITY_ORDER : List (String × Nat) :=
  [("NONE", 0), ("LOW", 1), ("MEDIUM", 2), ("HIGH", 3), ("CRITICAL", 4)]

/-- `SEVERITY_ORDER.get(s, d)` — dict lookup with a default. -/
def severityOrderD (s : String) (d : Nat) : Nat :=
  (SEVERITY_ORDER.lookup s).getD d

/-- `should_scan_bucket` from `src/scanner.py`: `not allow_buckets` is true
for `None` and for an empty list. -/
def should_scan_bucket (bucket_name : String) (allow_buckets : Option (List String)) : Bool :=
  match allow_buckets with
  | none => true
  | some l => if l.isEmpty then true else l.contains bucket_name

/-- `evaluate_public_access_block` from `src/scanner.py`: true iff all four
protection flags are present and `True`. -/
def evaluate_public_access_block (config : PABConfig) : Bool :=
  config.BlockPublicAcls == some true &&
  config.IgnorePublicAcls == some true &&
  config.BlockPublicPolicy == some true &&
  config.RestrictPublicBuckets == some true

/-- The per-bucket body of the scan loop in `scan_s3_buckets`
(`src/scanner.py`): the `try`/`except ClientError`/`except Exception` ladder,
returning the findings appended for this bucket. -/
def bucketFindings (r : ReadResult) (bucket_name : String) : List Finding :=
  match r with
  | .ok config =>
      if !evaluate_public_access_block config then
        [{ bucket := some bucket_name,
           issue := some "Public access not fully blocked",
           severity := some "CRITICAL",
           details := none }]
      else []
  | .clientError err =>
      let code := err.code.getD "Unknown"
      if code == "NoSuchPublicAccessBlockConfiguration" then
        [{ bucket := some bucket_name,
           issue := some "No public access block configured",
           severity := some "CRITICAL",
           details := none }]
      else
        [{ bucket := some bucket_name,
           issue := some ("Could not scan bucket (ClientError: " ++ code ++ ")"),
           severity := some "HIGH",
           details := some (.errorDict err) }]
  | .raised msg =>
      [{ bucket := some bucket_name,
         issue := some "Could not scan bucket (Exception)",
         severity := some "HIGH",
         details := some (.text msg) }]

/-- One iteration of the scan loop: skip buckets rejected by the allowlist,
otherwise bump `scanned_count` and append this bucket's findings. -/
def scanStep (read : String → ReadResult) (allow_buckets : Option (List String))
    (st : Nat × List Finding) (bucket_name : String) : Nat × List Finding :=
  if !should_scan_bucket bucket_name allow_buckets then st
  else (st.1 + 1, st.2 ++ bucketFindings (read bucket_name) bucket_name)

/-- `scan_s3_buckets` from `src/scanner.py`.  `read` stands for
`get_public_access_block` on the injected s3 client; `bucket_list` is the
name list returned by `s3.list_buckets()`. -/
def scan_s3_buckets (read : String → ReadResult) (bucket_list : List String)
    (allow_buckets : Option (List String)) : ScanReport :=
  let st := bucket_list.foldl (scanStep read allow_buckets) (0, [])
  let findings := st.2
  { scanned_buckets := st.1
    findings := findings
    summary :=
      { total_findings := findings.length
        critical := findings.countP (fun f => f.severity == some "CRITICAL")
        high := findings.countP (fun f => f.severity == some "HIGH")
        medium := findings.countP (fun f => f.severity == some "MEDIUM")
        low := findings.countP (fun f => f.severity == some "LOW") } }

/-- The exit-code computation of `main` in `src/scanner.py` after the report
is produced.  `none` models the `KeyError` that `SEVERITY_ORDER[args.fail_on]`
would raise for a string outside the argparse choices. -/
def scanExitCode (fail_on : String) (report : ScanReport) : Option Nat :=
  match SEVERITY_ORDER.lookup fail_on with
  | none => none
  | some threshold =>
    if threshold == 0 then some 0
    else
      let worst := report.findings.foldl
        (fun w f => max w (severityOrderD (f.severity.getD "NONE") 0)) 0
      if threshold ≤ worst && 0 < report.summary.total_findings then some 2
      else some 0

/-- `DESIRED_PUBLIC_ACCESS_BLOCK` from `src/remediate.py`: the fixed
requested configuration, all four protection flags `True`. -/
def DESIRED_PUBLIC_ACCESS_BLOCK : PABConfig :=
  { BlockPublicAcls := some true
    IgnorePublicAcls := some true
    BlockPublicPolicy := some true
    RestrictPublicBuckets := some true }

/-- Outcome of a provider write call (`s3.put_public_access_block`): success,
a raised `ClientError` with its envelope, or any other raised exception. -/
inductive PutResult where
  | ok
  | clientError (err : ErrorEnvelope)
  | raised (msg : String)
deriving DecidableEq, Repr

/-- The `error` field of an action: either a plain string or the
`{code, message}` dict built from a `ClientError` envelope. -/
inductive ActionError where
  | text (s : String)
  | codeMessage (code : String) (message : Option String)
deriving DecidableEq, Repr

/-- An action dict as built in `remediate` (`src/remediate.py`).  The fixed
`"action": "put_public_access_block"` tag and the constant
`requested_config = DESIRED_PUBLIC_ACCESS_BLOCK` are the same for every
action and are kept as fields. -/
structure Action where
  bucket : Option String
  issue : Option String
  action : String
  requested_config : PABConfig
  status : String
  error : Option ActionError
deriving DecidableEq, Repr

/-- Summary block of a remediation report. -/
structure RemSummary where
  applied : Nat
  failed : Nat
  dry_run : Nat
  skipped : Nat
deriving DecidableEq, Repr

/-- A remediation report (`src/remediate.py`); `generated_at` and the constant
`service`/`remediator` tags are omitted. -/
structure RemReport where
  approve_mode : Bool
  targets : Nat
  actions : List Action
  summary : RemSummary
deriving DecidableEq, Repr

/-- Python truthiness of an optional string: `None` and `""` are falsy
(`if not bucket:` in the source). -/
def truthyStr (s : Option String) : Bool :=
  match s with
  | none => false
  | some v => !v.isEmpty

/-- The body of the per-target loop in `remediate` (`src/remediate.py`):
builds the action for one eligible finding and returns it together with the
list of provider write calls issued while handling it (empty or a single
`put_public_access_block` on the target bucket). -/
def processTarget (put : String → PutResult) (approve : Bool) (f : Finding) :
    Action × List String :=
  let bucket := f.bucket
  let action : Action :=
    { bucket := bucket
      issue := f.issue
      action := "put_public_access_block"
      requested_config := DESIRED_PUBLIC_ACCESS_BLOCK
      status := if !approve then "DRY_RUN" else "PENDING"
      error := none }
  if !truthyStr bucket then
    ({ action with status := "SKIPPED", error := some (.text "Missing bucket name in finding.") }, [])
  else if !approve then
    (action, [])
  else
    let b := bucket.getD ""
    match put b with
    | .ok => ({ action with status := "APPLIED" }, [b])
    | .clientError err =>
        ({ action with
             status := "FAILED"
             error := some (.codeMessage (err.code.getD "Unknown") err.message) }, [b])
    | .raised msg =>
        ({ action with status := "FAILED", error := some (.text msg) }, [b])

/-- `remediate` from `src/remediate.py`.  `put` stands for
`put_public_access_block` on the injected s3 client; the second component of
the result is the ordered list of provider write calls issued (the
call-count stub of the spec).  The input is the `findings` list of the scan
report (`findings_report.get("findings", [])`). -/
def remediate (put : String → PutResult) (findings : List Finding) (approve : Bool) :
    RemReport × List String :=
  let targets := findings.filter (fun f => f.severity == some "CRITICAL")
  let st := targets.foldl
    (fun st f =>
      let r := processTarget put approve f
      (st.1 ++ [r.1], st.2 ++ r.2))
    ([], [])
  let actions := st.1
  ({ approve_mode := approve
     targets := targets.length
     actions := actions
     summary :=
       { applied := actions.countP (fun a => a.status == "APPLIED")
         failed := actions.countP (fun a => a.status == "FAILED")
         dry_run := actions.countP (fun a => a.status == "DRY_RUN")
         skipped := actions.countP (fun a => a.status == "SKIPPED") } },
   st.2)

/-- The exit-code computation of `main` in `src/remediate.py`: non-zero only
when `--approve` was given and the report counts at least one failure. -/
def remediateExitCode (approve : Bool) (report : RemReport) : Nat :=
  if approve && decide (0 < report.summary.failed) then 1 else 0

/-! ### Structural lemmas about the two loops -/

/-- The scan loop is a filtered fold: it counts the allowlisted buckets and
concatenates their findings in bucket order. -/
theorem scanLoop_spec (read : String → ReadResult) (allow : Option (List String)) :
    ∀ (l : List String) (n : Nat) (fs : List Finding),
      l.foldl (scanStep read allow) (n, fs) =
        (n + (l.filter (fun b => should_scan_bucket b allow)).length,
         fs ++ ((l.filter (fun b => should_scan_bucket b allow)).map
                  (fun b => bucketFindings (read b) b)).flatten) := by
  intro l
  induction l with
  | nil => intro n fs; simp
  | cons b l ih =>
    intro n fs
    by_cases h : should_scan_bucket b allow = true
    · have hst : scanStep read allow (n, fs) b = (n + 1, fs ++ bucketFindings (read b) b) := by
        simp [scanStep, h]
      rw [List.foldl_cons, hst, ih]
      simp [List.filter_cons, h, List.append_assoc, Prod.ext_iff]
      omega
    · have h' : should_scan_bucket b allow = false := by
        revert h; cases should_scan_bucket b allow <;> simp
      have hst : scanStep read allow (n, fs) b = (n, fs) := by
        simp [scanStep, h']
      rw [List.foldl_cons, hst, ih]
      simp [List.filter_cons, h']

/-- The findings of a scan report are the concatenation of the per-bucket
findings of the allowlisted buckets, in order. -/
theorem scan_findings_eq (read : String → ReadResult) (l : List String)
    (allow : Option (List String)) :
    (scan_s3_buckets read l allow).findings =
      ((l.filter (fun b => should_scan_bucket b allow)).map
        (fun b => bucketFindings (read b) b)).flatten := by
  simp [scan_s3_buckets, scanLoop_spec]

/-- `scanned_buckets` counts exactly the allowlisted buckets. -/
theorem scan_scanned_eq (read : String → ReadResult) (l : List String)
    (allow : Option (List String)) :
    (scan_s3_buckets read l allow).scanned_buckets =
      (l.filter (fun b => should_scan_bucket b allow)).length := by
  simp [scan_s3_buckets, scanLoop_spec]

/-- The remediation loop is a plain fold appending one action (and the calls
it issued) per target. -/
theorem remLoop_spec (put : String → PutResult) (approve : Bool) :
    ∀ (l : List Finding) (acc : List Action × List String),
      l.foldl
        (fun st f =>
          let r := processTarget put approve f
          (st.1 ++ [r.1], st.2 ++ r.2)) acc =
        (acc.1 ++ l.map (fun f => (processTarget put approve f).1),
         acc.2 ++ (l.map (fun f => (processTarget put approve f).2)).flatten) := by
  intro l
  induction l with
  | nil => intro acc; simp
  | cons f l ih =>
    intro acc
    rw [List.foldl_cons, ih]
    simp [List.append_assoc]

/-- The actions of a remediation report: one per CRITICAL finding, in order,
each produced independently by the per-target body. -/
theorem remediate_actions_eq (put : String → PutResult) (fs : List Finding) (approve : Bool) :
    (remediate put fs approve).1.actions =
      (fs.filter (fun f => f.severity == some "CRITICAL")).map
        (fun f => (processTarget put approve f).1) := by
  simp [remediate, remLoop_spec]

/-- The provider write calls of a remediation run: concatenation of the calls
of the per-target bodies. -/
theorem remediate_calls_eq (put : String → PutResult) (fs : List Finding) (approve : Bool) :
    (remediate put fs approve).2 =
      ((fs.filter (fun f => f.severity == some "CRITICAL")).map
        (fun f => (processTarget put approve f).2)).flatten := by
  simp [remediate, remLoop_spec]

/-- The `targets` field counts the CRITICAL findings. -/
theorem remediate_targets_eq (put : String → PutResult) (fs : List Finding) (approve : Bool) :
    (remediate put fs approve).1.targets =
      (fs.filter (fun f => f.severity == some "CRITICAL")).length := rfl

/-- The per-target body preserves the finding's bucket field. -/
theorem processTarget_fst_bucket (put : String → PutResult) (approve : Bool) (f : Finding) :
    (processTarget put approve f).1.bucket = f.bucket := by
  unfold processTarget
  cases hb : truthyStr f.bucket <;> cases approve <;> simp [hb] <;>
    cases put (f.bucket.getD "") <;> rfl

/-- Status of the action produced by the per-target body: SKIPPED without a
truthy bucket, DRY_RUN without approval, otherwise APPLIED or FAILED
according to the provider's answer. -/
theorem processTarget_status (put : String → PutResult) (approve : Bool) (f : Finding) :
    (processTarget put approve f).1.status =
      (if !truthyStr f.bucket then "SKIPPED"
       else if !approve then "DRY_RUN"
       else
         match put (f.bucket.getD "") with
         | .ok => "APPLIED"
         | .clientError _ => "FAILED"
         | .raised _ => "FAILED") := by
  unfold processTarget
  cases hb : truthyStr f.bucket <;> cases approve <;> simp [hb] <;>
    cases put (f.bucket.getD "") <;> rfl

/-- Provider write calls of the per-target body: exactly one call, on the
target bucket, iff the bucket is truthy and the run is approved. -/
theorem processTarget_snd (put : String → PutResult) (approve : Bool) (f : Finding) :
    (processTarget put approve f).2 =
      (if truthyStr f.bucket && approve then [f.bucket.getD ""] else []) := by
  unfold processTarget
  cases hb : truthyStr f.bucket <;> cases approve <;> simp [hb] <;>
    cases put (f.bucket.getD "") <;> rfl

/-- Every action terminates in one of the four persisted statuses; PENDING
never survives the per-target body. -/
theorem processTarget_status_mem (put : String → PutResult) (approve : Bool) (f : Finding) :
    (processTarget put approve f).1.status = "APPLIED" ∨
    (processTarget put approve f).1.status = "FAILED" ∨
    (processTarget put approve f).1.status = "DRY_RUN" ∨
    (processTarget put approve f).1.status = "SKIPPED" := by
  rw [processTarget_status]
  cases truthyStr f.bucket <;> cases approve <;> simp <;>
    cases put (f.bucket.getD "") <;> simp

/-- A list of actions whose statuses all lie in the four persisted values is
fully counted by the four status counters. -/
theorem countP_status_partition :
    ∀ (l : List Action),
      (∀ a ∈ l, a.status = "APPLIED" ∨ a.status = "FAILED" ∨
        a.status = "DRY_RUN" ∨ a.status = "SKIPPED") →
      l.countP (fun a => a.status == "APPLIED") + l.countP (fun a => a.status == "FAILED") +
        l.countP (fun a => a.status == "DRY_RUN") + l.countP (fun a => a.status == "SKIPPED") =
        l.length := by
  intro l
  induction l with
  | nil => intro _; simp
  | cons a l ih =>
    intro h
    have ha := h a (List.mem_cons_self a l)
    have hl : ∀ x ∈ l, x.status = "APPLIED" ∨ x.status = "FAILED" ∨
        x.status = "DRY_RUN" ∨ x.status = "SKIPPED" :=
      fun x hx => h x (List.mem_cons_of_mem a hx)
    simp only [List.countP_cons, List.length_cons]
    have hi := ih hl
    rcases ha with h1 | h1 | h1 | h1 <;> simp +decide [h1] <;> omega

/-- A list of findings whose severities are all CRITICAL or HIGH is fully
counted by those two severity counters. -/
theorem countP_severity_partition :
    ∀ (l : List Finding),
      (∀ fd ∈ l, fd.severity = some "CRITICAL" ∨ fd.severity = some "HIGH") →
      l.countP (fun fd => fd.severity == some "CRITICAL") +
        l.countP (fun fd => fd.severity == some "HIGH") = l.length := by
  intro l
  induction l with
  | nil => intro _; simp
  | cons fd l ih =>
    intro h
    have ha := h fd (List.mem_cons_self fd l)
    have hl : ∀ x ∈ l, x.severity = some "CRITICAL" ∨ x.severity = some "HIGH" :=
      fun x hx => h x (List.mem_cons_of_mem fd hx)
    have hi := ih hl
    simp only [List.countP_cons, List.length_cons]
    rcases ha with h1 | h1 <;> simp +decide [h1] <;> omega

/-- Every finding the per-bucket body emits carries severity CRITICAL or
HIGH — the scanner never produces MEDIUM or LOW. -/
theorem bucketFindings_severity (r : ReadResult) (name : String) :
    ∀ fd ∈ bucketFindings r name,
      fd.severity = some "CRITICAL" ∨ fd.severity = some "HIGH" := by
  intro fd hfd
  cases r with
  | ok config =>
    by_cases h : evaluate_public_access_block config = true
    · simp [bucketFindings, h] at hfd
    · have h' : evaluate_public_access_block config = false := by
        revert h; cases evaluate_public_access_block config <;> simp
      simp [bucketFindings, h'] at hfd
      subst hfd; left; rfl
  | clientError err =>
    by_cases h : (err.code.getD "Unknown" == "NoSuchPublicAccessBlockConfiguration") = true
    · simp [bucketFindings, h] at hfd
      subst hfd; left; rfl
    · have h' : (err.code.getD "Unknown" == "NoSuchPublicAccessBlockConfiguration") = false := by
        revert h; cases err.code.getD "Unknown" == "NoSuchPublicAccessBlockConfiguration" <;> simp
      simp [bucketFindings, h'] at hfd
      subst hfd; right; rfl
  | raised msg =>
    simp [bucketFindings] at hfd
    subst hfd; right; rfl

/-- Every finding of a full scan carries severity CRITICAL or HIGH. -/
theorem scan_findings_severity (read : String → ReadResult) (l : List String)
    (allow : Option (List String)) :
    ∀ fd ∈ (scan_s3_buckets read l allow).findings,
      fd.severity = some "CRITICAL" ∨ fd.severity = some "HIGH" := by
  intro fd hfd
  rw [scan_findings_eq] at hfd
  rcases List.mem_flatten.mp hfd with ⟨fs, hfs, hmem⟩
  rcases List.mem_map.mp hfs with ⟨b, _, rfl⟩
  exact bucketFindings_severity (read b) b fd hmem

/-- A fold of `max` over mapped severities reaches `t` iff the accumulator
does or some element does. -/
theorem le_foldl_max (g : Finding → Nat) :
    ∀ (l : List Finding) (t a : Nat),
      (t ≤ l.foldl (fun w fd => max w (g fd)) a ↔ t ≤ a ∨ ∃ fd ∈ l, t ≤ g fd) := by
  intro l
  induction l with
  | nil => intro t a; simp
  | cons fd l ih =>
    intro t a
    rw [List.foldl_cons, ih]
    simp only [le_max_iff, List.mem_cons]
    constructor
    · rintro ((h | h) | ⟨x, hx, hgx⟩)
      · exact Or.inl h
      · exact Or.inr ⟨fd, Or.inl rfl, h⟩
      · exact Or.inr ⟨x, Or.inr hx, hgx⟩
    · rintro (h | ⟨x, hx | hx, hgx⟩)
      · exact Or.inl (Or.inl h)
      · subst hx; exact Or.inl (Or.inr hgx)
      · exact Or.inr ⟨x, hx, hgx⟩

/-- Exit-code behaviour of the scan command for a non-NONE threshold that the
severity dict resolves to `t > 0`. -/
theorem scanExitCode_pos (rep : ScanReport) (fail_on : String) (t : Nat)
    (hl : SEVERITY_ORDER.lookup fail_on = some t) (ht : 0 < t) :
    (scanExitCode fail_on rep = some 0 ∨ scanExitCode fail_on rep = some 2) ∧
    (scanExitCode fail_on rep = some 2 ↔
      (0 < rep.summary.total_findings ∧
       ∃ fd ∈ rep.findings, t ≤ severityOrderD (fd.severity.getD "NONE") 0)) := by
  have ht' : (t == 0) = false := by
    revert ht; cases t <;> simp
  unfold scanExitCode
  rw [hl]
  simp only [ht', Bool.false_eq_true, if_false]
  by_cases hc : (t ≤ rep.findings.foldl
      (fun w f => max w (severityOrderD (f.severity.getD "NONE") 0)) 0 ∧
      0 < rep.summary.total_findings)
  · have hb : (decide (t ≤ rep.findings.foldl
        (fun w f => max w (severityOrderD (f.severity.getD "NONE") 0)) 0) &&
        decide (0 < rep.summary.total_findings)) = true := by
      simp [hc.1, hc.2]
    rw [hb]
    simp only [if_true]
    constructor
    · simp
    · constructor
      · intro _
        refine ⟨hc.2, ?_⟩
        have := (le_foldl_max (fun fd => severityOrderD (fd.severity.getD "NONE") 0)
          rep.findings t 0).mp hc.1
        rcases this with h0 | h
        · omega
        · exact h
      · intro _; trivial
  · have hb : (decide (t ≤ rep.findings.foldl
        (fun w f => max w (severityOrderD (f.severity.getD "NONE") 0)) 0) &&
        decide (0 < rep.summary.total_findings)) = false := by
      rcases Decidable.not_and_iff_or_not.mp hc with h | h <;> simp [h]
    rw [hb]
    simp only [Bool.false_eq_true, if_false]
    constructor
    · simp
    · constructor
      · intro h; exact absurd h (by simp)
      · rintro ⟨hpos, fd, hfd, hge⟩
        exfalso
        apply hc
        refine ⟨?_, hpos⟩
        exact (le_foldl_max (fun fd => severityOrderD (fd.severity.getD "NONE") 0)
          rep.findings t 0).mpr (Or.inr ⟨fd, hfd, hge⟩)

/-- Exit-code behaviour of the scan command for any threshold that resolves to
a positive rank, phrased with the amended side conditions. -/
theorem scanExit_amended_core (rep : ScanReport) (fail_on : String) (t : Nat)
    (hl : SEVERITY_ORDER.lookup fail_on = some t) (ht : 0 < t)
    (hs : severityOrderD fail_on 0 = t) (hne : fail_on ≠ "NONE") :
    (scanExitCode fail_on rep = some 0 ∨ scanExitCode fail_on rep = some 2) ∧
    (scanExitCode fail_on rep = some 2 ↔
      (fail_on ≠ "NONE" ∧ 0 < rep.summary.total_findings ∧
       ∃ fd ∈ rep.findings,
         severityOrderD fail_on 0 ≤ severityOrderD (fd.severity.getD "NONE") 0)) := by
  have hp := scanExitCode_pos rep fail_on t hl ht
  refine ⟨hp.1, ?_⟩
  rw [hp.2, hs]
  constructor
  · rintro ⟨h1, h2⟩; exact ⟨hne, h1, h2⟩
  · rintro ⟨_, h1, h2⟩; exact ⟨h1, h2⟩

/-! ### Claims -/

/-- Claim C1, counterexample: with `approve = false`, a CRITICAL finding with
no bucket name yields an action whose status is `SKIPPED`, not `DRY_RUN`; so
it is false that every action of a dry run has status `DRY_RUN`. -/
theorem claim_C1_counterexample :
    ¬ (((remediate (fun _ => PutResult.ok)
          [{ bucket := none, issue := some "Public access not fully blocked",
             severity := some "CRITICAL", details := none }] false).1.actions.all
        (fun a => a.status == "DRY_RUN")) = true) := by
  decide

/-- Claim C1 (amended): when `approve = false` no provider write call is ever
issued, and every action has status `DRY_RUN` — except an action for a
finding whose bucket name is missing or empty, which has status `SKIPPED`. -/
theorem claim_C1_dry_run_amended (put : String → PutResult) (fs : List Finding) :
    (remediate put fs false).2 = [] ∧
    ((remediate put fs false).1.actions.all
      (fun a => a.status == (if truthyStr a.bucket then "DRY_RUN" else "SKIPPED"))) = true := by
  constructor
  · rw [remediate_calls_eq]
    rw [List.flatten_eq_nil_iff]
    intro l hl
    rcases List.mem_map.mp hl with ⟨fd, _, rfl⟩
    rw [processTarget_snd]
    simp
  · rw [remediate_actions_eq, List.all_eq_true]
    intro a ha
    rcases List.mem_map.mp ha with ⟨fd, _, rfl⟩
    rw [processTarget_status, processTarget_fst_bucket]
    cases truthyStr fd.bucket <;> simp

/-- Claim C2: the remediation engine always emits one action per eligible
(CRITICAL) finding, each action is produced independently by the per-target
body, the status of each action is determined by its own finding and the
provider's answer for its own bucket alone, and in the concrete three-target
scenario where only the second write fails the report holds exactly
`[APPLIED, FAILED, APPLIED]`. -/
theorem claim_C2_failure_isolation (put : String → PutResult) (fs : List Finding) (approve : Bool) :
    (remediate put fs approve).1.actions.length =
      (fs.filter (fun fd => fd.severity == some "CRITICAL")).length ∧
    (remediate put fs approve).1.actions =
      (fs.filter (fun fd => fd.severity == some "CRITICAL")).map
        (fun fd => (processTarget put approve fd).1) ∧
    (∀ fd : Finding,
      (processTarget put approve fd).1.status =
        (if !truthyStr fd.bucket then "SKIPPED"
         else if !approve then "DRY_RUN"
         else
           match put (fd.bucket.getD "") with
           | .ok => "APPLIED"
           | .clientError _ => "FAILED"
           | .raised _ => "FAILED")) ∧
    ((remediate
        (fun b => if b == "b2" then
            .clientError { code := some "AccessDenied", message := some "denied" }
          else .ok)
        [{ bucket := some "b1", issue := some "i", severity := some "CRITICAL", details := none },
         { bucket := some "b2", issue := some "i", severity := some "CRITICAL", details := none },
         { bucket := some "b3", issue := some "i", severity := some "CRITICAL", details := none }]
        true).1.actions.map (fun a => a.status)) = ["APPLIED", "FAILED", "APPLIED"] := by
  refine ⟨?_, remediate_actions_eq put fs approve, processTarget_status put approve, ?_⟩
  · rw [remediate_actions_eq, List.length_map]
  · decide

/-- Claim C3: the remediation targets are exactly the findings whose severity
equals CRITICAL — the action list is the image of the CRITICAL-filtered
finding list, and the `targets` counter counts that list. -/
theorem claim_C3_selection (put : String → PutResult) (fs : List Finding) (approve : Bool) :
    (remediate put fs approve).1.actions =
      (fs.filter (fun fd => fd.severity == some "CRITICAL")).map
        (fun fd => (processTarget put approve fd).1) ∧
    (remediate put fs approve).1.targets =
      (fs.filter (fun fd => fd.severity == some "CRITICAL")).length :=
  ⟨remediate_actions_eq put fs approve, remediate_targets_eq put fs approve⟩

/-- Claim C4: with a readable configuration the evaluator emits zero findings
iff all four flags are explicitly true; otherwise it emits exactly one
CRITICAL finding with the incomplete-blocking message; an absent
configuration (`NoSuchPublicAccessBlockConfiguration`) yields exactly one
CRITICAL finding with the not-configured message; the two messages differ. -/
theorem claim_C4_evaluator (name : String) (config : PABConfig) (msg : Option String) :
    (bucketFindings (.ok config) name = [] ↔
      (config.BlockPublicAcls = some true ∧ config.IgnorePublicAcls = some true ∧
       config.BlockPublicPolicy = some true ∧ config.RestrictPublicBuckets = some true)) ∧
    (bucketFindings (.ok config) name = [] ∨
      bucketFindings (.ok config) name =
        [{ bucket := some name, issue := some "Public access not fully blocked",
           severity := some "CRITICAL", details := none }]) ∧
    (bucketFindings
        (.clientError { code := some "NoSuchPublicAccessBlockConfiguration", message := msg })
        name =
      [{ bucket := some name, issue := some "No public access block configured",
         severity := some "CRITICAL", details := none }]) ∧
    ("Public access not fully blocked" : String) ≠ "No public access block configured" := by
  refine ⟨?_, ?_, rfl, by decide⟩
  · constructor
    · intro he
      by_cases h : evaluate_public_access_block config = true
      · have h' := h
        simp only [evaluate_public_access_block, Bool.and_eq_true, beq_iff_eq] at h'
        exact ⟨h'.1.1.1, h'.1.1.2, h'.1.2, h'.2⟩
      · exfalso
        have h' : evaluate_public_access_block config = false := by
          revert h; cases evaluate_public_access_block config <;> simp
        simp [bucketFindings, h'] at he
    · intro hconj
      have h : evaluate_public_access_block config = true := by
        simp only [evaluate_public_access_block, Bool.and_eq_true, beq_iff_eq]
        exact ⟨⟨⟨hconj.1, hconj.2.1⟩, hconj.2.2.1⟩, hconj.2.2.2⟩
      simp [bucketFindings, h]
  · by_cases h : evaluate_public_access_block config = true
    · left; simp [bucketFindings, h]
    · right
      have h' : evaluate_public_access_block config = false := by
        revert h; cases evaluate_public_access_block config <;> simp
      simp [bucketFindings, h']

/-- Claim C5: a configuration read that fails with a `ClientError` other than
`NoSuchPublicAccessBlockConfiguration` yields exactly one HIGH finding
carrying the raw error envelope as details; any other exception yields
exactly one HIGH finding carrying its text; and the findings of a full scan
are the concatenation of the independent per-bucket findings, so one
bucket's failure never suppresses, reorders or removes another bucket's
findings and never aborts the scan. -/
theorem claim_C5_read_failure_isolation (read : String → ReadResult) (l : List String)
    (allow : Option (List String)) (name : String) (err : ErrorEnvelope) (m : String) :
    (bucketFindings (.clientError err) name =
      (if err.code.getD "Unknown" == "NoSuchPublicAccessBlockConfiguration" then
        [{ bucket := some name, issue := some "No public access block configured",
           severity := some "CRITICAL", details := none }]
      else
        [{ bucket := some name,
           issue := some ("Could not scan bucket (ClientError: " ++ err.code.getD "Unknown" ++ ")"),
           severity := some "HIGH", details := some (.errorDict err) }])) ∧
    (bucketFindings (.raised m) name =
      [{ bucket := some name, issue := some "Could not scan bucket (Exception)",
         severity := some "HIGH", details := some (.text m) }]) ∧
    ((scan_s3_buckets read l allow).findings =
      ((l.filter (fun b => should_scan_bucket b allow)).map
        (fun b => bucketFindings (read b) b)).flatten) :=
  ⟨rfl, rfl, scan_findings_eq read l allow⟩

/-- Claim C6: in every remediation report the four status counters sum to the
number of actions, which equals the `targets` field, and each counter counts
exactly the actions with its status. -/
theorem claim_C6_summary_invariant (put : String → PutResult) (fs : List Finding) (approve : Bool) :
    ((remediate put fs approve).1.summary.applied + (remediate put fs approve).1.summary.failed +
      (remediate put fs approve).1.summary.dry_run + (remediate put fs approve).1.summary.skipped =
      (remediate put fs approve).1.actions.length) ∧
    ((remediate put fs approve).1.actions.length = (remediate put fs approve).1.targets) ∧
    ((remediate put fs approve).1.summary.applied =
      (remediate put fs approve).1.actions.countP (fun a => a.status == "APPLIED")) ∧
    ((remediate put fs approve).1.summary.failed =
      (remediate put fs approve).1.actions.countP (fun a => a.status == "FAILED")) ∧
    ((remediate put fs approve).1.summary.dry_run =
      (remediate put fs approve).1.actions.countP (fun a => a.status == "DRY_RUN")) ∧
    ((remediate put fs approve).1.summary.skipped =
      (remediate put fs approve).1.actions.countP (fun a => a.status == "SKIPPED")) := by
  refine ⟨?_, ?_, rfl, rfl, rfl, rfl⟩
  · have h : ∀ a ∈ (remediate put fs approve).1.actions,
        a.status = "APPLIED" ∨ a.status = "FAILED" ∨
        a.status = "DRY_RUN" ∨ a.status = "SKIPPED" := by
      intro a ha
      rw [remediate_actions_eq] at ha
      rcases List.mem_map.mp ha with ⟨fd, _, rfl⟩
      exact processTarget_status_mem put approve fd
    exact countP_status_partition _ h
  · rw [remediate_actions_eq, List.length_map, remediate_targets_eq]

/-- Claim C7: in every scan report — including an empty one —
`summary.total_findings` equals the number of findings and each per-severity
counter counts exactly the findings with that severity. -/
theorem claim_C7_scan_summary (read : String → ReadResult) (l : List String)
    (allow : Option (List String)) :
    ((scan_s3_buckets read l allow).summary.total_findings =
      (scan_s3_buckets read l allow).findings.length) ∧
    ((scan_s3_buckets read l allow).summary.critical =
      (scan_s3_buckets read l allow).findings.countP (fun fd => fd.severity == some "CRITICAL")) ∧
    ((scan_s3_buckets read l allow).summary.high =
      (scan_s3_buckets read l allow).findings.countP (fun fd => fd.severity == some "HIGH")) ∧
    ((scan_s3_buckets read l allow).summary.medium =
      (scan_s3_buckets read l allow).findings.countP (fun fd => fd.severity == some "MEDIUM")) ∧
    ((scan_s3_buckets read l allow).summary.low =
      (scan_s3_buckets read l allow).findings.countP (fun fd => fd.severity == some "LOW")) :=
  ⟨rfl, rfl, rfl, rfl, rfl⟩

/-- Claim C8, counterexample: with threshold `NONE` and one CRITICAL finding
the command exits 0, although at least one finding's severity rank reaches
the threshold's rank and `total_findings > 0` — so "exits 2 iff at least one
finding's severity ≥ threshold and total_findings > 0" fails as stated. -/
theorem claim_C8_counterexample :
    ¬ ((scanExitCode "NONE"
          (scan_s3_buckets
            (fun _ => .clientError
              { code := some "NoSuchPublicAccessBlockConfiguration", message := none })
            ["b"] none) = some 2) ↔
        (0 < (scan_s3_buckets
            (fun _ => .clientError
              { code := some "NoSuchPublicAccessBlockConfiguration", message := none })
            ["b"] none).summary.total_findings ∧
         ∃ fd ∈ (scan_s3_buckets
            (fun _ => .clientError
              { code := some "NoSuchPublicAccessBlockConfiguration", message := none })
            ["b"] none).findings,
           severityOrderD "NONE" 0 ≤ severityOrderD (fd.severity.getD "NONE") 0)) := by
  decide

/-- Claim C8 (amended): for every scan run and admissible threshold the scan
command exits 0 or 2, and it exits 2 iff the threshold is not `NONE`, the
report has findings, and at least one finding's severity rank reaches the
threshold's rank. -/
theorem claim_C8_exit_amended (read : String → ReadResult) (l : List String)
    (allow : Option (List String)) (fail_on : String)
    (h : fail_on = "NONE" ∨ fail_on = "LOW" ∨ fail_on = "MEDIUM" ∨
         fail_on = "HIGH" ∨ fail_on = "CRITICAL") :
    (scanExitCode fail_on (scan_s3_buckets read l allow) = some 0 ∨
     scanExitCode fail_on (scan_s3_buckets read l allow) = some 2) ∧
    (scanExitCode fail_on (scan_s3_buckets read l allow) = some 2 ↔
      (fail_on ≠ "NONE" ∧
       0 < (scan_s3_buckets read l allow).summary.total_findings ∧
       ∃ fd ∈ (scan_s3_buckets read l allow).findings,
         severityOrderD fail_on 0 ≤ severityOrderD (fd.severity.getD "NONE") 0)) := by
  rcases h with h | h | h | h | h <;> subst h
  · constructor
    · left; rfl
    · constructor
      · intro hx; exact absurd hx (by simp [scanExitCode, SEVERITY_ORDER])
      · rintro ⟨hne, _⟩; exact absurd rfl hne
  · exact scanExit_amended_core _ "LOW" 1 (by decide) (by decide) (by decide) (by decide)
  · exact scanExit_amended_core _ "MEDIUM" 2 (by decide) (by decide) (by decide) (by decide)
  · exact scanExit_amended_core _ "HIGH" 3 (by decide) (by decide) (by decide) (by decide)
  · exact scanExit_amended_core _ "CRITICAL" 4 (by decide) (by decide) (by decide) (by decide)

/-- Claim C8, witness: a scan of one bucket with no public-access-block
configuration, checked with threshold CRITICAL, exits 2. -/
theorem claim_C8_witness :
    scanExitCode "CRITICAL"
      (scan_s3_buckets
        (fun _ => .clientError
          { code := some "NoSuchPublicAccessBlockConfiguration", message := none })
        ["b"] none) = some 2 := by
  have h := (claim_C8_exit_amended
    (fun _ => .clientError
      { code := some "NoSuchPublicAccessBlockConfiguration", message := none })
    ["b"] none "CRITICAL"
    (Or.inr (Or.inr (Or.inr (Or.inr rfl))))).2
  exact h.mpr (by decide)

/-- Claim C9: a CRITICAL finding without a truthy bucket name short-circuits
to a SKIPPED action with a non-null error, no provider write call is issued
for it, the single-finding remediation run exits 0 for either approve mode,
and in general the remediate command exits 1 iff `--approve` was given and
at least one action FAILED. -/
theorem claim_C9_skipped (put : String → PutResult) (approve : Bool) (f : Finding)
    (hs : f.severity = some "CRITICAL") (hb : truthyStr f.bucket = false) :
    (processTarget put approve f).1.status = "SKIPPED" ∧
    (processTarget put approve f).1.error = some (.text "Missing bucket name in finding.") ∧
    (processTarget put approve f).2 = [] ∧
    remediateExitCode approve (remediate put [f] approve).1 = 0 ∧
    (∀ (rep : RemReport) (ap : Bool),
      remediateExitCode ap rep = 1 ↔ (ap = true ∧ 0 < rep.summary.failed)) := by
  have hpt : (processTarget put approve f).1.status = "SKIPPED" := by
    rw [processTarget_status, hb]; simp
  have hpe : (processTarget put approve f).1.error =
      some (.text "Missing bucket name in finding.") := by
    simp [processTarget, hb]
  have hps : (processTarget put approve f).2 = [] := by
    rw [processTarget_snd, hb]; simp
  refine ⟨hpt, hpe, hps, ?_, ?_⟩
  · have hact : (remediate put [f] approve).1.actions = [(processTarget put approve f).1] := by
      rw [remediate_actions_eq]
      simp [List.filter_cons, hs]
    have hfail : (remediate put [f] approve).1.summary.failed = 0 := by
      show (remediate put [f] approve).1.actions.countP (fun a => a.status == "FAILED") = 0
      rw [hact]
      simp +decide [List.countP_cons, hpt]
    rw [remediateExitCode, hfail]
    simp
  · intro rep ap
    cases ap <;> by_cases hf : 0 < rep.summary.failed <;> simp [remediateExitCode, hf]

/-- Claim C9, witness: the skipped-target behaviour and the zero exit code at
a concrete bucket-less CRITICAL finding under `--approve`. -/
theorem claim_C9_witness :
    (processTarget (fun _ => PutResult.ok) true
       { bucket := none, issue := some "No public access block configured",
         severity := some "CRITICAL", details := none }).1.status = "SKIPPED" ∧
    remediateExitCode true
      (remediate (fun _ => PutResult.ok)
        [{ bucket := none, issue := some "No public access block configured",
           severity := some "CRITICAL", details := none }] true).1 = 0 := by
  have h := claim_C9_skipped (fun _ => PutResult.ok) true
    { bucket := none, issue := some "No public access block configured",
      severity := some "CRITICAL", details := none } rfl rfl
  exact ⟨h.1, h.2.2.2.1⟩

/-- Claim C10: every finding a scan emits has severity CRITICAL or HIGH, so
the medium and low counters are always 0 and the critical and high counters
sum to `total_findings`. -/
theorem claim_C10_severity_range (read : String → ReadResult) (l : List String)
    (allow : Option (List String)) :
    ((scan_s3_buckets read l allow).findings.all
      (fun fd => fd.severity == some "CRITICAL" || fd.severity == some "HIGH")) = true ∧
    (scan_s3_buckets read l allow).summary.medium = 0 ∧
    (scan_s3_buckets read l allow).summary.low = 0 ∧
    (scan_s3_buckets read l allow).summary.critical +
      (scan_s3_buckets read l allow).summary.high =
      (scan_s3_buckets read l allow).summary.total_findings := by
  have hsev := scan_findings_severity read l allow
  refine ⟨?_, ?_, ?_, ?_⟩
  · rw [List.all_eq_true]
    intro fd hfd
    rcases hsev fd hfd with h | h <;> simp [h]
  · show (scan_s3_buckets read l allow).findings.countP
      (fun fd => fd.severity == some "MEDIUM") = 0
    rw [List.countP_eq_zero]
    intro fd hfd
    rcases hsev fd hfd with h | h <;> simp +decide [h]
  · show (scan_s3_buckets read l allow).findings.countP
      (fun fd => fd.severity == some "LOW") = 0
    rw [List.countP_eq_zero]
    intro fd hfd
    rcases hsev fd hfd with h | h <;> simp +decide [h]
  · exact countP_severity_partition _ hsev

end S3Guard
